import Mathlib

/-!
# Verification development for `node/hack/query/send_req.go`

A shallow embedding of the query-sending tool: the domain-separated digest
`queryRequestDigest`, the bootstrap-peer loop of the routing constructor, the
key loader `loadGuardianKey`, and the stage sequence of `main`.

Third-party collaborators (Keccak-256, secp256k1 signing, protobuf
serialisation, the armor decoder, libp2p) are not part of the source file; every
definition takes them as function parameters, so each theorem holds for whatever
those libraries compute.
-/

namespace SendReq

/-! ## Bytes, strings and Go slices -/

/-- A Go `byte`. -/
abbrev Byte := UInt8

/-- Go's conversion `[]byte(s)`: the UTF-8 bytes of the string. -/
def bytesOfString (s : String) : List Byte :=
  s.data.flatMap String.utf8EncodeChar

/-- The type `ethCommon.Hash`, a `[32]byte` array. -/
abbrev Hash := Fin 32 → Byte

/-- The bytes of a hash, as returned by `Hash.Bytes()`. -/
def Hash.Bytes (h : Hash) : List Byte := List.ofFn h

/-- Go's built-in `append(s, b...)` for a slice `s` of length `len` over the backing
array `arr` (so `cap(s) = arr.length`). When the capacity suffices the elements are
written in place after the first `len` cells and the result shares the array;
otherwise a fresh array is allocated and `arr` is left alone. Returns the contents of
the resulting slice and the backing array of `s` after the call. -/
def goAppend (arr : List Byte) (len : Nat) (b : List Byte) : List Byte × List Byte :=
  if len + b.length ≤ arr.length then
    let arr' := arr.take len ++ b ++ arr.drop (len + b.length)
    (arr'.take (len + b.length), arr')
  else
    (arr.take len ++ b, arr)

/-! ## The digest -/

/-- The literal of `var queryRequestPrefix = []byte("query_request_00000000000000000000|")`. -/
def queryRequestPrefix : List Byte :=
  bytesOfString "query_request_00000000000000000000|"

/-- The function `queryRequestDigest`: `ethCrypto.Keccak256Hash(append(queryRequestPrefix, b...))`.
The package-level slice `queryRequestPrefix` has length `queryRequestPrefix.length` over the
backing array `mem`; the call returns the hash and the backing array afterwards. -/
def queryRequestDigest (keccak256Hash : List Byte → Hash) (mem : List Byte) (b : List Byte) :
    Hash × List Byte :=
  let r := goAppend mem queryRequestPrefix.length b
  (keccak256Hash r.1, r.2)

/-- The backing array of `queryRequestPrefix` after a sequence of calls of
`queryRequestDigest`, one per element of `calls`. -/
def afterCalls (keccak256Hash : List Byte → Hash) (mem : List Byte) (calls : List (List Byte)) :
    List Byte :=
  calls.foldl (fun m b => (queryRequestDigest keccak256Hash m b).2) mem

/-! ## Go strings, errors and standard-library helpers -/

/-- Go's `strings.Split(s, ",")`: the substrings between the commas of `s`
(a string without comma gives the one-element list holding it). -/
def stringsSplitComma (s : String) : List String :=
  (s.data.splitOn ',').map String.mk

/-- Go's `strings.Join(es, ",")`. -/
def stringsJoinComma (es : List String) : String :=
  String.mk (List.intercalate [','] (es.map String.data))

/-- A Go `error` value: its message and, for an error built with `%w`, the wrapped cause. -/
inductive GoError where
  | leaf (msg : String)
  | wrap (msg : String) (cause : GoError)
  deriving DecidableEq, Repr

/-- The method `Error()`: the message of an error. -/
def GoError.Error : GoError → String
  | .leaf msg => msg
  | .wrap msg _ => msg

/-- The call `fmt.Errorf(pfx + "%w", err)`: the message is `pfx` followed by the cause's
message, and the cause is wrapped. -/
def errorfW (pfx : String) (err : GoError) : GoError :=
  .wrap (pfx ++ err.Error) err

/-- The call `fmt.Errorf(pfx + "%s", s)`. -/
def errorfS (pfx : String) (s : String) : GoError :=
  .leaf (pfx ++ s)

/-- The helper `fromHexChar` of `encoding/hex`. -/
def fromHexChar (c : Byte) : Option Nat :=
  if 48 ≤ c.toNat ∧ c.toNat ≤ 57 then some (c.toNat - 48)
  else if 97 ≤ c.toNat ∧ c.toNat ≤ 102 then some (c.toNat - 97 + 10)
  else if 65 ≤ c.toNat ∧ c.toNat ≤ 70 then some (c.toNat - 65 + 10)
  else none

/-- The function `hex.Decode` on the bytes of the input: the bytes decoded before the first
error, and that error if there is one (the error texts are abbreviated). -/
def hexDecode : List Byte → List Byte × Option GoError
  | a :: b :: rest =>
    match fromHexChar a, fromHexChar b with
    | some x, some y =>
      let r := hexDecode rest
      ((x * 16 + y).toUInt8 :: r.1, r.2)
    | _, _ => ([], some (.leaf "encoding/hex: invalid byte"))
  | [a] =>
    match fromHexChar a with
    | some _ => ([], some (.leaf "encoding/hex: odd length hex string"))
    | none => ([], some (.leaf "encoding/hex: invalid byte"))
  | [] => ([], none)

/-- Go's `hex.DecodeString`. -/
def hexDecodeString (s : String) : List Byte × Option GoError :=
  hexDecode (bytesOfString s)

/-! ## Bootstrap peers (the `libp2p.Routing` closure of `main`) -/

/-- A libp2p `peer.ID` (a Go string type). -/
abbrev PeerID := String

/-- The type `peer.AddrInfo`. -/
structure AddrInfo (MA : Type) where
  ID : PeerID
  Addrs : List MA

/-- One iteration of the loop over `strings.Split(bootstrapPeers, ",")`: the list
`bootstrappers` after the iteration for the entry `addr`. -/
def bootstrapStep {MA : Type} (newMultiaddr : String → Except GoError MA)
    (addrInfoFromP2pAddr : MA → Except GoError (AddrInfo MA)) (hID : PeerID)
    (bootstrappers : List (AddrInfo MA)) (addr : String) : List (AddrInfo MA) :=
  if addr = "" then bootstrappers
  else
    match newMultiaddr addr with
    | .error _ => bootstrappers
    | .ok ma =>
      match addrInfoFromP2pAddr ma with
      | .error _ => bootstrappers
      | .ok pi =>
        if pi.ID = hID then bootstrappers
        else bootstrappers ++ [pi]

/-- The list `bootstrappers` the closure builds from the string `bootstrapPeers` for the
host whose ID is `hID`. -/
def bootstrapPeerList {MA : Type} (newMultiaddr : String → Except GoError MA)
    (addrInfoFromP2pAddr : MA → Except GoError (AddrInfo MA)) (hID : PeerID)
    (bootstrapPeers : String) : List (AddrInfo MA) :=
  (stringsSplitComma bootstrapPeers).foldl
    (bootstrapStep newMultiaddr addrInfoFromP2pAddr hID) []

/-- The specification's reading of one entry: the peer address descriptor it contributes,
if it is non-empty, parses as a multiaddr, yields a descriptor, and is not the local host. -/
def acceptedEntry {MA : Type} (newMultiaddr : String → Except GoError MA)
    (addrInfoFromP2pAddr : MA → Except GoError (AddrInfo MA)) (hID : PeerID)
    (addr : String) : Option (AddrInfo MA) :=
  if addr = "" then none
  else
    match newMultiaddr addr with
    | .error _ => none
    | .ok ma =>
      match addrInfoFromP2pAddr ma with
      | .error _ => none
      | .ok pi => if pi.ID = hID then none else some pi

/-! ## The key loader -/

/-- The constant `GuardianKeyArmoredBlock`. -/
def GuardianKeyArmoredBlock : String := "WORMHOLE GUARDIAN PRIVATE KEY"

/-- The fields of `armor.Block` the loader reads: the type label and the body reader. -/
structure ArmorBlock (Reader : Type) where
  blockType : String
  Body : Reader

/-- The message `nodev1.GuardianKey`. -/
structure GuardianKey where
  Data : List Byte

/-- The library calls of `loadGuardianKey`, in the order it makes them. -/
structure KeyFileOps (File Reader Key : Type) where
  osOpen : String → Except GoError File
  armorDecode : File → Except GoError (ArmorBlock Reader)
  ioReadAll : Reader → Except GoError (List Byte)
  protoUnmarshal : List Byte → Except GoError GuardianKey
  toECDSA : List Byte → Except GoError Key

/-- The function `loadGuardianKey`; the result is the Go pair `(*ecdsa.PrivateKey, error)`,
`none` standing for `nil`. -/
def loadGuardianKey {File Reader Key : Type} (ops : KeyFileOps File Reader Key)
    (filename : String) : Option Key × Option GoError :=
  match ops.osOpen filename with
  | .error err => (none, some (errorfW "failed to open file: " err))
  | .ok f =>
    match ops.armorDecode f with
    | .error err => (none, some (errorfW "failed to read armored file: " err))
    | .ok p =>
      if p.blockType ≠ GuardianKeyArmoredBlock then
        (none, some (errorfS "invalid block type: " p.blockType))
      else
        match ops.ioReadAll p.Body with
        | .error err => (none, some (errorfW "failed to read file: " err))
        | .ok b =>
          match ops.protoUnmarshal b with
          | .error err => (none, some (errorfW "failed to deserialize protobuf: " err))
          | .ok m =>
            match ops.toECDSA m.Data with
            | .error err => (none, some (errorfW "failed to deserialize raw key data: " err))
            | .ok gk => (some gk, none)

/-- The stages of `loadGuardianKey`, in order. -/
inductive LoadStage where
  | openFile | armorDecode | labelCheck | bodyRead | deserialize | keyReconstruct
  deriving DecidableEq, Repr

/-- The literal each stage's error message starts with. -/
def LoadStage.pfx : LoadStage → String
  | .openFile => "failed to open file: "
  | .armorDecode => "failed to read armored file: "
  | .labelCheck => "invalid block type: "
  | .bodyRead => "failed to read file: "
  | .deserialize => "failed to deserialize protobuf: "
  | .keyReconstruct => "failed to deserialize raw key data: "

/-- The specification's reading of the loader: the first stage that fails, with the text
that follows the stage's literal in the message, or the key when no stage fails. -/
def firstFailure {File Reader Key : Type} (ops : KeyFileOps File Reader Key)
    (filename : String) : Except (LoadStage × String) Key := do
  let f ← (ops.osOpen filename).mapError (fun e => (LoadStage.openFile, e.Error))
  let p ← (ops.armorDecode f).mapError (fun e => (LoadStage.armorDecode, e.Error))
  if p.blockType ≠ GuardianKeyArmoredBlock then throw (LoadStage.labelCheck, p.blockType)
  let b ← (ops.ioReadAll p.Body).mapError (fun e => (LoadStage.bodyRead, e.Error))
  let m ← (ops.protoUnmarshal b).mapError (fun e => (LoadStage.deserialize, e.Error))
  (ops.toECDSA m.Data).mapError (fun e => (LoadStage.keyReconstruct, e.Error))

/-! ## The stage sequence of `main` -/

/-- The type `ethCommon.Address`, a `[20]byte` array. -/
abbrev Address := Fin 20 → Byte

/-- The bytes of an address, as returned by `Address.Bytes()`. -/
def Address.Bytes (a : Address) : List Byte := List.ofFn a

/-- The message `gossipv1.EthCallQueryRequest`. -/
structure EthCallQueryRequest where
  To : List Byte
  Data : List Byte
  Block : String
  deriving DecidableEq, Repr

/-- The variant of `QueryRequest.Message` the tool populates. -/
inductive QueryRequestMessage where
  | EthCallQueryRequest (r : EthCallQueryRequest)
  deriving DecidableEq, Repr

/-- The message `gossipv1.QueryRequest`. -/
structure QueryRequest where
  ChainId : Nat
  Nonce : Nat
  Message : QueryRequestMessage
  deriving DecidableEq, Repr

/-- The message `gossipv1.SignedQueryRequest`. -/
structure SignedQueryRequest where
  QueryRequest : List Byte
  Signature : List Byte
  RequestorAddr : List Byte
  deriving DecidableEq, Repr

/-- The variant of `GossipMessage.Message` the tool populates. -/
inductive GossipMessageVariant where
  | SignedQueryRequest (r : SignedQueryRequest)
  deriving DecidableEq, Repr

/-- The message `gossipv1.GossipMessage`. -/
structure GossipMessage where
  Message : GossipMessageVariant
  deriving DecidableEq, Repr

/-- The library calls of `main`: key files, libp2p, pub/sub, protobuf and the Ethereum
crypto helpers, together with the spare capacity `prefixSpare` behind the slice
`queryRequestPrefix`. -/
structure Env (File Reader Key PubKey PrivKey MA Host DHT PubSub Topic : Type) where
  keyOps : KeyFileOps File Reader Key
  getOrCreateNodeKey : String → Except GoError PrivKey
  listeningAddresses : Nat → List String
  libp2pNew : PrivKey → List String → (Host → Except GoError DHT) → Except GoError Host
  hostID : Host → PeerID
  newMultiaddr : String → Except GoError MA
  addrInfoFromP2pAddr : MA → Except GoError (AddrInfo MA)
  dhtNew : Host → String → List (AddrInfo MA) → Except GoError DHT
  newGossipSub : Host → Except GoError PubSub
  join : PubSub → String → Except GoError Topic
  marshalQueryRequest : QueryRequest → Except GoError (List Byte)
  keccak256Hash : List Byte → Hash
  prefixSpare : List Byte
  sign : List Byte → Key → Except GoError (List Byte)
  publicKey : Key → PubKey
  pubkeyToAddress : PubKey → Address
  marshalGossipMessage : GossipMessage → Except GoError (List Byte)
  publish : Topic → List Byte → Option GoError

/-- The stages of a run that `main` reaches, in the order it reaches them. -/
inductive Event where
  | loadSigningKey
  | loadNodeKey
  | newHost
  | newGossipSub
  | joinTopic
  | marshalRequest
  | sign
  | marshalEnvelope
  | publish (msg : List Byte)
  | logSuccess
  deriving DecidableEq, Repr

/-- How a run ends: by returning from `main`, by `logger.Fatal`, by `panic(err)`, by
`logger.Panic`, or by dereferencing a nil key. -/
inductive Exit where
  | done
  | fatal (msg : String) (err : GoError)
  | panic (err : GoError)
  | logPanic (msg : String) (err : GoError)
  | nilDereference
  deriving DecidableEq, Repr

/-- What a run of `main` does: the stages reached and the way it ends. -/
structure Run where
  events : List Event
  exit : Exit
  deriving DecidableEq, Repr

/-- The closure given to `libp2p.Routing`: it builds the bootstrap list and hands it to
`dht.New`, whose result it returns. -/
def routingClosure {File Reader Key PubKey PrivKey MA Host DHT PubSub Topic : Type}
    (env : Env File Reader Key PubKey PrivKey MA Host DHT PubSub Topic)
    (bootstrapPeers networkID : String) (h : Host) : Except GoError DHT :=
  env.dhtNew h ("/" ++ networkID)
    (bootstrapPeerList env.newMultiaddr env.addrInfoFromP2pAddr (env.hostID h) bootstrapPeers)

/-- The query `main` sends. -/
def theQueryRequest : QueryRequest :=
  let to_ := (hexDecodeString "0d500b1d8e8ef31e21c99d1db9a6444d3adf1270").1
  let data := (hexDecodeString "18160ddd").1
  let block := "latest"
  let callRequest : EthCallQueryRequest := { To := to_, Data := data, Block := block }
  { ChainId := 5, Nonce := 0, Message := .EthCallQueryRequest callRequest }

/-- The local `p2pNetworkID` of `main`. -/
def p2pNetworkID : String := "/wormhole/dev"

/-- The local `p2pPort` of `main`. -/
def p2pPort : Nat := 8998

/-- The local `p2pBootstrap` of `main`. -/
def p2pBootstrap : String :=
  "/dns4/guardian-0.guardian/udp/8999/quic/p2p/12D3KooWL3XJ9EMCyZvmmGXL2LMiVBtrVa2BuESsJiXkSj7333Jw"

/-- The local `nodeKeyPath` of `main`. -/
def nodeKeyPath : String := "/tmp/node.key"

/-- The local `signingKeyPath` of `main`. -/
def signingKeyPath : String := "./dev.guardian.key"

/-- The local `topic` of `main`: `fmt.Sprintf("%s/%s", networkID, "broadcast")`. -/
def topic : String := p2pNetworkID ++ "/" ++ "broadcast"

/-- The value `main` builds in `msg`: the gossip message whose variant is the signed query
request over the bytes `q`, with signature `sig` and the address of the key `sk`. -/
def envelope {File Reader Key PubKey PrivKey MA Host DHT PubSub Topic : Type}
    (env : Env File Reader Key PubKey PrivKey MA Host DHT PubSub Topic)
    (sk : Key) (q sig : List Byte) : GossipMessage :=
  let signedQueryRequest : SignedQueryRequest :=
    { QueryRequest := q
      Signature := sig
      RequestorAddr := (env.pubkeyToAddress (env.publicKey sk)).Bytes }
  { Message := .SignedQueryRequest signedQueryRequest }

/-- The function `main`. -/
def main {File Reader Key PubKey PrivKey MA Host DHT PubSub Topic : Type}
    (env : Env File Reader Key PubKey PrivKey MA Host DHT PubSub Topic) : Run :=
  match loadGuardianKey env.keyOps signingKeyPath with
  | (_, some err) => ⟨[.loadSigningKey], .fatal "failed to load guardian key" err⟩
  | (sk, none) =>
    match env.getOrCreateNodeKey nodeKeyPath with
    | .error err => ⟨[.loadSigningKey, .loadNodeKey], .fatal "Failed to load node key" err⟩
    | .ok priv =>
      match env.libp2pNew priv (env.listeningAddresses p2pPort)
          (routingClosure env p2pBootstrap p2pNetworkID) with
      | .error err => ⟨[.loadSigningKey, .loadNodeKey, .newHost], .panic err⟩
      | .ok h =>
        match env.newGossipSub h with
        | .error err => ⟨[.loadSigningKey, .loadNodeKey, .newHost, .newGossipSub], .panic err⟩
        | .ok ps =>
          match env.join ps topic with
          | .error err =>
            ⟨[.loadSigningKey, .loadNodeKey, .newHost, .newGossipSub, .joinTopic],
              .logPanic "failed to join topic" err⟩
          | .ok th =>
            match env.marshalQueryRequest theQueryRequest with
            | .error err =>
              ⟨[.loadSigningKey, .loadNodeKey, .newHost, .newGossipSub, .joinTopic,
                .marshalRequest], .panic err⟩
            | .ok queryRequestBytes =>
              let digest := (queryRequestDigest env.keccak256Hash
                (queryRequestPrefix ++ env.prefixSpare) queryRequestBytes).1
              match sk with
              | none =>
                ⟨[.loadSigningKey, .loadNodeKey, .newHost, .newGossipSub, .joinTopic,
                  .marshalRequest, .sign], .nilDereference⟩
              | some sk =>
                match env.sign digest.Bytes sk with
                | .error err =>
                  ⟨[.loadSigningKey, .loadNodeKey, .newHost, .newGossipSub, .joinTopic,
                    .marshalRequest, .sign], .panic err⟩
                | .ok sig =>
                  let msg : GossipMessage := envelope env sk queryRequestBytes sig
                  match env.marshalGossipMessage msg with
                  | .error err =>
                    ⟨[.loadSigningKey, .loadNodeKey, .newHost, .newGossipSub, .joinTopic,
                      .marshalRequest, .sign, .marshalEnvelope], .panic err⟩
                  | .ok b =>
                    match env.publish th b with
                    | some err =>
                      ⟨[.loadSigningKey, .loadNodeKey, .newHost, .newGossipSub, .joinTopic,
                        .marshalRequest, .sign, .marshalEnvelope, .publish b], .panic err⟩
                    | none =>
                      ⟨[.loadSigningKey, .loadNodeKey, .newHost, .newGossipSub, .joinTopic,
                        .marshalRequest, .sign, .marshalEnvelope, .publish b, .logSuccess],
                        .done⟩

/-- The stage list of a run that publishes `msg` and reports success. -/
def fullRun (msg : List Byte) : List Event :=
  [.loadSigningKey, .loadNodeKey, .newHost, .newGossipSub, .joinTopic, .marshalRequest,
    .sign, .marshalEnvelope, .publish msg, .logSuccess]

/-- The specification's reading of a run in which the eight stages before `Publish` all
succeed: signing key `sk`, node key `priv`, host `h`, pub/sub `ps`, topic handle `th`,
serialised request `q`, signature `sig`, serialised envelope `b`. -/
def StagesSucceed {File Reader Key PubKey PrivKey MA Host DHT PubSub Topic : Type}
    (env : Env File Reader Key PubKey PrivKey MA Host DHT PubSub Topic)
    (sk : Key) (priv : PrivKey) (h : Host) (ps : PubSub) (th : Topic)
    (q sig b : List Byte) : Prop :=
  loadGuardianKey env.keyOps signingKeyPath = (some sk, none)
  ∧ env.getOrCreateNodeKey nodeKeyPath = .ok priv
  ∧ env.libp2pNew priv (env.listeningAddresses p2pPort)
      (routingClosure env p2pBootstrap p2pNetworkID) = .ok h
  ∧ env.newGossipSub h = .ok ps
  ∧ env.join ps topic = .ok th
  ∧ env.marshalQueryRequest theQueryRequest = .ok q
  ∧ env.sign (queryRequestDigest env.keccak256Hash
      (queryRequestPrefix ++ env.prefixSpare) q).1.Bytes sk = .ok sig
  ∧ env.marshalGossipMessage (envelope env sk q sig) = .ok b

/-! ## A small concrete environment, used to instantiate the theorems -/

/-- A hash for examples: all ones on `tag ++ [1]`, all zeros elsewhere. -/
def demoHash (x : List Byte) : Hash :=
  if x = queryRequestPrefix ++ [1] then fun _ => 1 else fun _ => 0

/-- Raw bytes of the example key. -/
def demoKey : List Byte := List.replicate 32 7

/-- Example encoding of a `GuardianKey` record: field 1, length, data. -/
def demoMarshalKey (m : GuardianKey) : List Byte :=
  10 :: (UInt8.ofNat m.Data.length) :: m.Data

/-- Example key-file operations: every file opens, the armor block has label `label` and
body `body`, a record is field 1 with a one-byte length, a key is any 32 bytes. -/
def demoKeyOps (label : String) (body : List Byte) :
    KeyFileOps String (List Byte) (List Byte) where
  osOpen := fun name => .ok name
  armorDecode := fun _ => .ok { blockType := label, Body := body }
  ioReadAll := fun r => .ok r
  protoUnmarshal := fun b =>
    match b with
    | 10 :: _ :: data => .ok { Data := data }
    | _ => .error (.leaf "proto: cannot parse invalid wire-format data")
  toECDSA := fun d =>
    if d.length = 32 then .ok d else .error (.leaf "invalid length, need 256 bits")

/-- Example multiaddr parser: a multiaddr is a text that begins with `/`. -/
def demoNewMultiaddr (s : String) : Except GoError String :=
  match s.data with
  | '/' :: _ => .ok s
  | _ => .error (.leaf "failed to parse multiaddr: must begin with /")

/-- Example descriptor: the peer ID is the last `/`-separated component. -/
def demoAddrInfo (ma : String) : Except GoError (AddrInfo String) :=
  .ok { ID := String.mk ((ma.data.splitOn '/').getLast?.getD []), Addrs := [ma] }

/-- Example environment in which every stage succeeds. -/
def demoEnv : Env String (List Byte) (List Byte) (List Byte) Nat String String Nat Nat String where
  keyOps := demoKeyOps GuardianKeyArmoredBlock (demoMarshalKey { Data := demoKey })
  getOrCreateNodeKey := fun _ => .ok 1
  listeningAddresses := fun _ => []
  libp2pNew := fun _ _ routing =>
    match routing "self" with
    | .ok _ => .ok "self"
    | .error e => .error e
  hostID := fun h => h
  newMultiaddr := demoNewMultiaddr
  addrInfoFromP2pAddr := demoAddrInfo
  dhtNew := fun _ _ peers => .ok peers.length
  newGossipSub := fun _ => .ok 0
  join := fun _ t => .ok t
  marshalQueryRequest := fun q =>
    match q.Message with
    | .EthCallQueryRequest r => .ok r.Data
  keccak256Hash := demoHash
  prefixSpare := []
  sign := fun _ _ => .ok (List.replicate 65 1)
  publicKey := fun k => k
  pubkeyToAddress := fun pk i => pk.getD i.val 0
  marshalGossipMessage := fun g =>
    match g.Message with
    | .SignedQueryRequest r => .ok (r.QueryRequest ++ r.Signature ++ r.RequestorAddr)
  publish := fun _ _ => none

/-- Example environment whose signing-key file carries the wrong armor label. -/
def demoEnvBadKey :
    Env String (List Byte) (List Byte) (List Byte) Nat String String Nat Nat String :=
  { demoEnv with keyOps := demoKeyOps "PGP MESSAGE" [] }

/-- The bytes the example environment publishes. -/
def demoMsg : List Byte :=
  [0x18, 0x16, 0x0d, 0xdd] ++ List.replicate 65 1 ++ List.replicate 20 7

/-- Two texts that differ at a position both have: no continuations make them equal. -/
def diverge : List Char → List Char → Bool
  | a :: as, b :: bs => a != b || diverge as bs
  | _, _ => false

/-! ## Lemmas on `goAppend` and the digest -/

theorem queryRequestPrefix_length : queryRequestPrefix.length = 35 := by decide

theorem goAppend_fst (pre rest b : List Byte) :
    (goAppend (pre ++ rest) pre.length b).1 = pre ++ b := by
  unfold goAppend
  split
  · simp only [List.take_left', List.append_assoc]
    rw [← List.append_assoc, List.take_append_of_le_length (by simp)]
    rw [List.take_of_length_le (by simp)]
  · simp

theorem goAppend_snd (pre rest b : List Byte) :
    ∃ rest', (goAppend (pre ++ rest) pre.length b).2 = pre ++ rest' ∧ rest'.length = rest.length := by
  unfold goAppend
  split
  · rename_i h
    refine ⟨b ++ (pre ++ rest).drop (pre.length + b.length), ?_, ?_⟩
    · simp
    · simp only [List.length_append, List.length_drop] at h ⊢
      omega
  · exact ⟨rest, rfl, rfl⟩

theorem afterCalls_shape (keccak256Hash : List Byte → Hash) (calls : List (List Byte)) :
    ∀ spare : List Byte, ∃ spare', afterCalls keccak256Hash (queryRequestPrefix ++ spare) calls
      = queryRequestPrefix ++ spare' ∧ spare'.length = spare.length := by
  induction calls with
  | nil => intro spare; exact ⟨spare, rfl, rfl⟩
  | cons b bs ih =>
    intro spare
    obtain ⟨s1, h1, hl1⟩ := goAppend_snd queryRequestPrefix spare b
    obtain ⟨s2, h2, hl2⟩ := ih s1
    refine ⟨s2, ?_, hl2.trans hl1⟩
    simp only [afterCalls, List.foldl_cons, queryRequestDigest] at h2 ⊢
    rw [h1]
    exact h2

theorem queryRequestDigest_fst (keccak256Hash : List Byte → Hash) (spare b : List Byte) :
    (queryRequestDigest keccak256Hash (queryRequestPrefix ++ spare) b).1
      = keccak256Hash (queryRequestPrefix ++ b) := by
  simp only [queryRequestDigest, goAppend_fst]

/-! ## C1 -/

/-- C1: on every call, whatever calls came before and whatever spare capacity the
backing array of the prefix has, `queryRequestDigest b` is Keccak-256 of `tag ++ b`,
where `tag` is the 35 ASCII bytes of `query_request_00000000000000000000|`; the hashed
input has length `35 + len b`, and the 35 tag bytes are still in place after the call. -/
theorem queryRequestDigest_eq_keccak_tag_append (keccak256Hash : List Byte → Hash)
    (spare : List Byte) (earlier : List (List Byte)) (b : List Byte) :
    (queryRequestDigest keccak256Hash
        (afterCalls keccak256Hash (queryRequestPrefix ++ spare) earlier) b).1
      = keccak256Hash (queryRequestPrefix ++ b)
    ∧ queryRequestPrefix
      = [113, 117, 101, 114, 121, 95, 114, 101, 113, 117, 101, 115, 116, 95,
         48, 48, 48, 48, 48, 48, 48, 48, 48, 48, 48, 48, 48, 48, 48, 48, 48, 48, 48, 48, 124]
    ∧ queryRequestPrefix = "query_request_00000000000000000000|".data.map (fun c => c.toNat.toUInt8)
    ∧ queryRequestPrefix.length = 35
    ∧ (queryRequestPrefix ++ b).length = 35 + b.length
    ∧ (queryRequestDigest keccak256Hash
        (afterCalls keccak256Hash (queryRequestPrefix ++ spare) earlier) b).2.take 35
      = queryRequestPrefix := by
  obtain ⟨s1, h1, _⟩ := afterCalls_shape keccak256Hash earlier spare
  obtain ⟨s2, h2, _⟩ := goAppend_snd queryRequestPrefix s1 b
  refine ⟨?_, by decide, by decide, by decide, ?_, ?_⟩
  · rw [h1, queryRequestDigest_fst]
  · simp [queryRequestPrefix_length]
  · rw [h1]
    simp only [queryRequestDigest]
    rw [h2]
    exact List.take_left' queryRequestPrefix_length

/-! ## C3 -/

theorem bootstrapStep_eq {MA : Type} (newMultiaddr : String → Except GoError MA)
    (addrInfoFromP2pAddr : MA → Except GoError (AddrInfo MA)) (hID : PeerID)
    (acc : List (AddrInfo MA)) (addr : String) :
    bootstrapStep newMultiaddr addrInfoFromP2pAddr hID acc addr
      = acc ++ (acceptedEntry newMultiaddr addrInfoFromP2pAddr hID addr).toList := by
  unfold bootstrapStep acceptedEntry
  split
  · simp
  · split
    · simp
    · split
      · simp
      · split <;> simp

theorem bootstrapFold_eq {MA : Type} (newMultiaddr : String → Except GoError MA)
    (addrInfoFromP2pAddr : MA → Except GoError (AddrInfo MA)) (hID : PeerID)
    (entries : List String) :
    ∀ acc : List (AddrInfo MA),
      entries.foldl (bootstrapStep newMultiaddr addrInfoFromP2pAddr hID) acc
        = acc ++ entries.filterMap (acceptedEntry newMultiaddr addrInfoFromP2pAddr hID) := by
  induction entries with
  | nil => intro acc; simp
  | cons e es ih =>
    intro acc
    rw [List.foldl_cons, ih, bootstrapStep_eq, List.filterMap_cons]
    cases acceptedEntry newMultiaddr addrInfoFromP2pAddr hID e <;> simp

theorem acceptedEntry_eq_some {MA : Type} (newMultiaddr : String → Except GoError MA)
    (addrInfoFromP2pAddr : MA → Except GoError (AddrInfo MA)) (hID : PeerID)
    (addr : String) (pi : AddrInfo MA) :
    acceptedEntry newMultiaddr addrInfoFromP2pAddr hID addr = some pi
      ↔ addr ≠ "" ∧ ∃ ma, newMultiaddr addr = .ok ma ∧ addrInfoFromP2pAddr ma = .ok pi
          ∧ pi.ID ≠ hID := by
  unfold acceptedEntry
  split
  · rename_i h
    simp [h]
  · rename_i h
    cases h1 : newMultiaddr addr with
    | error e => simp
    | ok ma =>
      dsimp only
      cases h2 : addrInfoFromP2pAddr ma with
      | error e =>
        simp only [h, ne_eq, not_false_eq_true, Except.ok.injEq, true_and]
        constructor
        · intro hc; cases hc
        · rintro ⟨ma', hma, hpi, _⟩
          rw [← hma, h2] at hpi
          cases hpi
      | ok pi' =>
        dsimp only
        by_cases h3 : pi'.ID = hID
        · simp only [h3, if_true, h, ne_eq, not_false_eq_true, Except.ok.injEq, true_and]
          constructor
          · intro hc; cases hc
          · rintro ⟨ma', hma, hpi, hne⟩
            rw [← hma, h2] at hpi
            cases hpi
            exact absurd h3 hne
        · simp only [h3, if_false, h, ne_eq, not_false_eq_true, Except.ok.injEq, true_and,
            Option.some.injEq]
          constructor
          · rintro rfl
            exact ⟨ma, rfl, h2, h3⟩
          · rintro ⟨ma', hma, hpi, _⟩
            rw [← hma, h2] at hpi
            cases hpi
            rfl

theorem stringsSplitComma_join (es : List String) (hne : es ≠ [])
    (hcomma : ∀ e ∈ es, ',' ∉ e.data) : stringsSplitComma (stringsJoinComma es) = es := by
  unfold stringsSplitComma stringsJoinComma
  rw [List.splitOn_intercalate]
  · simp [List.map_map, Function.comp_def]
  · intro l hl
    obtain ⟨e, he, rfl⟩ := List.mem_map.mp hl
    exact hcomma e he
  · simpa using hne

/-- C3: for every bootstrap string and local host ID the list built by the routing
closure is, in input order, the entries that are non-empty, parse as a multiaddr, yield a
peer address descriptor and do not carry the local host's ID; no entry of the result has
the local host's ID; splitting recovers the entries of a comma-separated string; and the
entries `""`, `/ip4/1.2.3.4/udp/4001/quic/p2p/<validID>`, `not-a-multiaddr` give exactly
the one descriptor of the valid address. -/
theorem bootstrapPeerList_spec {MA : Type} (newMultiaddr : String → Except GoError MA)
    (addrInfoFromP2pAddr : MA → Except GoError (AddrInfo MA)) (hID : PeerID)
    (bootstrapPeers : String) :
    bootstrapPeerList newMultiaddr addrInfoFromP2pAddr hID bootstrapPeers
      = (stringsSplitComma bootstrapPeers).filterMap
          (acceptedEntry newMultiaddr addrInfoFromP2pAddr hID)
    ∧ (∀ addr pi, acceptedEntry newMultiaddr addrInfoFromP2pAddr hID addr = some pi
        ↔ addr ≠ "" ∧ ∃ ma, newMultiaddr addr = .ok ma ∧ addrInfoFromP2pAddr ma = .ok pi
            ∧ pi.ID ≠ hID)
    ∧ (∀ pi ∈ bootstrapPeerList newMultiaddr addrInfoFromP2pAddr hID bootstrapPeers,
        pi.ID ≠ hID)
    ∧ (∀ es : List String, es ≠ [] → (∀ e ∈ es, ',' ∉ e.data) →
        stringsSplitComma (stringsJoinComma es) = es)
    ∧ (∀ (validID : String) (ma : MA) (pi : AddrInfo MA) (err : GoError),
        ',' ∉ validID.data →
        newMultiaddr ("/ip4/1.2.3.4/udp/4001/quic/p2p/" ++ validID) = .ok ma →
        addrInfoFromP2pAddr ma = .ok pi → pi.ID ≠ hID →
        newMultiaddr "not-a-multiaddr" = .error err →
        bootstrapPeerList newMultiaddr addrInfoFromP2pAddr hID
          (stringsJoinComma ["", "/ip4/1.2.3.4/udp/4001/quic/p2p/" ++ validID,
            "not-a-multiaddr"]) = [pi]) := by
  have hmain : ∀ s, bootstrapPeerList newMultiaddr addrInfoFromP2pAddr hID s
      = (stringsSplitComma s).filterMap
          (acceptedEntry newMultiaddr addrInfoFromP2pAddr hID) := by
    intro s
    unfold bootstrapPeerList
    rw [bootstrapFold_eq, List.nil_append]
  refine ⟨hmain _, acceptedEntry_eq_some _ _ _, ?_, stringsSplitComma_join, ?_⟩
  · intro pi hpi
    rw [hmain, List.mem_filterMap] at hpi
    obtain ⟨addr, _, hacc⟩ := hpi
    exact ((acceptedEntry_eq_some _ _ _ addr pi).mp hacc).2.choose_spec.2.2
  · intro validID ma pi err hval hma hpi hne herr
    have hvalid_ne : "/ip4/1.2.3.4/udp/4001/quic/p2p/" ++ validID ≠ "" := by
      intro h
      have hl : ("/ip4/1.2.3.4/udp/4001/quic/p2p/" ++ validID).length = 0 := by rw [h]; rfl
      have h0 : "/ip4/1.2.3.4/udp/4001/quic/p2p/".length = 31 := by decide
      rw [String.length_append, h0] at hl
      omega
    rw [hmain, stringsSplitComma_join _ (by simp)]
    · have h1 : acceptedEntry newMultiaddr addrInfoFromP2pAddr hID "" = none := by
        simp [acceptedEntry]
      have h2 : acceptedEntry newMultiaddr addrInfoFromP2pAddr hID
          ("/ip4/1.2.3.4/udp/4001/quic/p2p/" ++ validID) = some pi :=
        (acceptedEntry_eq_some _ _ _ _ _).mpr ⟨hvalid_ne, ma, hma, hpi, hne⟩
      have h3 : acceptedEntry newMultiaddr addrInfoFromP2pAddr hID "not-a-multiaddr"
          = none := by
        simp [acceptedEntry, herr]
      simp [List.filterMap_cons, h1, h2, h3]
    · intro e he
      simp only [List.mem_cons, List.mem_singleton, List.not_mem_nil, or_false] at he
      rcases he with rfl | rfl | rfl
      · simp
      · rw [String.data_append, List.mem_append, not_or]
        exact ⟨by decide, hval⟩
      · decide

/-! ## The key loader: C4, C5, C10 -/

theorem diverge_append_ne : ∀ (p q : List Char), diverge p q = true →
    ∀ x y : List Char, p ++ x ≠ q ++ y
  | [], _, h => by simp [diverge] at h
  | _ :: _, [], h => by simp [diverge] at h
  | a :: as, b :: bs, h => by
    intro x y hxy
    simp only [diverge, Bool.or_eq_true, bne_iff_ne, ne_eq] at h
    simp only [List.cons_append, List.cons.injEq] at hxy
    rcases h with h | h
    · exact h hxy.1
    · exact diverge_append_ne as bs h x y hxy.2

theorem string_append_ne (p q : String) (h : diverge p.data q.data = true) (x y : String) :
    p ++ x ≠ q ++ y := by
  intro hxy
  have := congrArg String.data hxy
  rw [String.data_append, String.data_append] at this
  exact diverge_append_ne _ _ h _ _ this

theorem pfx_diverge (st st' : LoadStage) (h : st ≠ st') :
    diverge st.pfx.data st'.pfx.data = true := by
  cases st <;> cases st' <;> first | exact absurd rfl h | decide

theorem loadGuardianKey_firstFailure {File Reader Key : Type} (ops : KeyFileOps File Reader Key)
    (filename : String) :
    match firstFailure ops filename with
    | .ok k => loadGuardianKey ops filename = (some k, none)
    | .error (st, detail) => ∃ e, loadGuardianKey ops filename = (none, some e)
        ∧ e.Error = st.pfx ++ detail := by
  cases h1 : ops.osOpen filename with
  | error e =>
    simp [firstFailure, loadGuardianKey, Except.mapError, bind, Except.bind, pure, Except.pure,
      throw, throwThe, MonadExceptOf.throw, errorfW, errorfS, GoError.Error, LoadStage.pfx, h1]
  | ok f =>
    cases h2 : ops.armorDecode f with
    | error e =>
      simp [firstFailure, loadGuardianKey, Except.mapError, bind, Except.bind, pure, Except.pure,
        throw, throwThe, MonadExceptOf.throw, errorfW, errorfS, GoError.Error, LoadStage.pfx, h1, h2]
    | ok p =>
      by_cases h3 : p.blockType = GuardianKeyArmoredBlock
      · cases h4 : ops.ioReadAll p.Body with
        | error e =>
          simp [firstFailure, loadGuardianKey, Except.mapError, bind, Except.bind, pure, Except.pure,
            throw, throwThe, MonadExceptOf.throw, errorfW, errorfS, GoError.Error, LoadStage.pfx, h1, h2, h3, h4]
        | ok b =>
          cases h5 : ops.protoUnmarshal b with
          | error e =>
            simp [firstFailure, loadGuardianKey, Except.mapError, bind, Except.bind, pure, Except.pure,
              throw, throwThe, MonadExceptOf.throw, errorfW, errorfS, GoError.Error, LoadStage.pfx, h1, h2, h3, h4, h5]
          | ok m =>
            cases h6 : ops.toECDSA m.Data with
            | error e =>
              simp [firstFailure, loadGuardianKey, Except.mapError, bind, Except.bind, pure, Except.pure,
                throw, throwThe, MonadExceptOf.throw, errorfW, errorfS, GoError.Error, LoadStage.pfx, h1, h2, h3, h4, h5, h6]
            | ok k =>
              simp [firstFailure, loadGuardianKey, Except.mapError, bind, Except.bind, pure, Except.pure,
                throw, throwThe, MonadExceptOf.throw, errorfW, errorfS, GoError.Error, LoadStage.pfx, h1, h2, h3, h4, h5, h6]
      · simp [firstFailure, loadGuardianKey, Except.mapError, bind, Except.bind, pure, Except.pure,
   throw, throwThe, MonadExceptOf.throw, errorfW, errorfS, GoError.Error, LoadStage.pfx, h1, h2, h3]

theorem loadGuardianKey_exactly_one {File Reader Key : Type}
    (ops : KeyFileOps File Reader Key) (filename : String) :
    (∃ k, loadGuardianKey ops filename = (some k, none))
      ∨ (∃ e, loadGuardianKey ops filename = (none, some e)) := by
  have h := loadGuardianKey_firstFailure ops filename
  cases hf : firstFailure ops filename with
  | ok k => rw [hf] at h; exact Or.inl ⟨k, h⟩
  | error sd =>
    rw [hf] at h
    obtain ⟨e, he, _⟩ := h
    exact Or.inr ⟨e, he⟩

/-- C4: when the file opens and armor-decodes to a block whose type label is not
`WORMHOLE GUARDIAN PRIVATE KEY`, `loadGuardianKey` returns no key and the error
`invalid block type: <label>`, whatever the body is and whatever reading, deserialising
or key reconstruction would have done with it; when the label is exactly that string, no
error the loader returns has a message starting with `invalid block type: `. -/
theorem loadGuardianKey_label_check {File Reader Key : Type}
    (ops : KeyFileOps File Reader Key) (filename : String) (f : File) (p : ArmorBlock Reader)
    (hopen : ops.osOpen filename = .ok f) (hdec : ops.armorDecode f = .ok p) :
    (p.blockType ≠ GuardianKeyArmoredBlock →
      loadGuardianKey ops filename
          = (none, some (GoError.leaf ("invalid block type: " ++ p.blockType)))
        ∧ ∀ (ioReadAll : Reader → Except GoError (List Byte))
            (protoUnmarshal : List Byte → Except GoError GuardianKey)
            (toECDSA : List Byte → Except GoError Key),
            loadGuardianKey
              { osOpen := ops.osOpen, armorDecode := ops.armorDecode, ioReadAll := ioReadAll,
                protoUnmarshal := protoUnmarshal, toECDSA := toECDSA } filename
              = loadGuardianKey ops filename)
    ∧ (p.blockType = GuardianKeyArmoredBlock →
        ∀ e, (loadGuardianKey ops filename).2 = some e →
          ∀ rest : String, e.Error ≠ "invalid block type: " ++ rest) := by
  constructor
  · intro hne
    constructor
    · simp [loadGuardianKey, hopen, hdec, hne, errorfS]
    · intro r u t
      simp [loadGuardianKey, hopen, hdec, hne]
  · intro heq e he rest
    have h := loadGuardianKey_firstFailure ops filename
    cases hf : firstFailure ops filename with
    | ok k =>
      rw [hf] at h
      rw [h] at he
      cases he
    | error sd =>
      obtain ⟨st, detail⟩ := sd
      rw [hf] at h
      obtain ⟨e', he', hmsg⟩ := h
      rw [he'] at he
      cases he
      rw [hmsg]
      have hst : st ≠ LoadStage.labelCheck := by
        rintro rfl
        cases h4 : ops.ioReadAll p.Body with
        | error e =>
          simp [firstFailure, hopen, hdec, heq, h4, Except.mapError, bind, Except.bind, pure,
            Except.pure] at hf
        | ok b =>
          cases h5 : ops.protoUnmarshal b with
          | error e =>
            simp [firstFailure, hopen, hdec, heq, h4, h5, Except.mapError, bind, Except.bind,
              pure, Except.pure] at hf
          | ok m =>
            cases h6 : ops.toECDSA m.Data with
            | error e =>
              simp [firstFailure, hopen, hdec, heq, h4, h5, h6, Except.mapError, bind,
                Except.bind, pure, Except.pure] at hf
            | ok k =>
              simp [firstFailure, hopen, hdec, heq, h4, h5, h6, Except.mapError, bind,
                Except.bind, pure, Except.pure] at hf
      exact string_append_ne _ _ (pfx_diverge _ _ hst) _ _

/-- C5: when the file opens, armor-decodes to a block labelled
`WORMHOLE GUARDIAN PRIVATE KEY`, and its body reads as the canonical encoding of the
record holding the raw bytes of the key `k` (an encoding the deserialiser inverts, raw
bytes the key reconstruction inverts), `loadGuardianKey` returns `k` and a nil error. -/
theorem loadGuardianKey_round_trip {File Reader Key : Type}
    (ops : KeyFileOps File Reader Key) (protoMarshal : GuardianKey → List Byte)
    (fromECDSA : Key → List Byte) (filename : String) (f : File) (p : ArmorBlock Reader)
    (k : Key)
    (hopen : ops.osOpen filename = .ok f) (hdec : ops.armorDecode f = .ok p)
    (hlabel : p.blockType = GuardianKeyArmoredBlock)
    (hbody : ops.ioReadAll p.Body = .ok (protoMarshal { Data := fromECDSA k }))
    (hproto : ops.protoUnmarshal (protoMarshal { Data := fromECDSA k })
      = .ok { Data := fromECDSA k })
    (hkey : ops.toECDSA (fromECDSA k) = .ok k) :
    loadGuardianKey ops filename = (some k, none) := by
  simp [loadGuardianKey, hopen, hdec, hlabel, hbody, hproto, hkey]

/-- C10: `loadGuardianKey` returns either a key and no error or no key and an error; the
error is that of the first failing stage in the order open file, armor decode, label
check, body read, record deserialisation, key reconstruction, its message being the
stage's literal followed by the detail; messages of different stages are never equal; each
stage's failure, after the earlier stages succeeded, yields that stage's error (a body
that fails record deserialisation yields the deserialisation error, not the key error);
and when no stage fails the key is returned. -/
theorem loadGuardianKey_stage_errors {File Reader Key : Type}
    (ops : KeyFileOps File Reader Key) (filename : String) :
    ((∃ k, loadGuardianKey ops filename = (some k, none))
      ∨ (∃ e, loadGuardianKey ops filename = (none, some e)))
    ∧ (match firstFailure ops filename with
        | .ok k => loadGuardianKey ops filename = (some k, none)
        | .error (st, detail) => ∃ e, loadGuardianKey ops filename = (none, some e)
            ∧ e.Error = st.pfx ++ detail)
    ∧ (∀ (st st' : LoadStage) (d d' : String), st ≠ st' → st.pfx ++ d ≠ st'.pfx ++ d')
    ∧ (∀ err, ops.osOpen filename = .error err →
        loadGuardianKey ops filename
          = (none, some (GoError.wrap ("failed to open file: " ++ err.Error) err)))
    ∧ (∀ f err, ops.osOpen filename = .ok f → ops.armorDecode f = .error err →
        loadGuardianKey ops filename
          = (none, some (GoError.wrap ("failed to read armored file: " ++ err.Error) err)))
    ∧ (∀ f p, ops.osOpen filename = .ok f → ops.armorDecode f = .ok p →
        p.blockType ≠ GuardianKeyArmoredBlock →
        loadGuardianKey ops filename
          = (none, some (GoError.leaf ("invalid block type: " ++ p.blockType))))
    ∧ (∀ f p err, ops.osOpen filename = .ok f → ops.armorDecode f = .ok p →
        p.blockType = GuardianKeyArmoredBlock → ops.ioReadAll p.Body = .error err →
        loadGuardianKey ops filename
          = (none, some (GoError.wrap ("failed to read file: " ++ err.Error) err)))
    ∧ (∀ f p b err, ops.osOpen filename = .ok f → ops.armorDecode f = .ok p →
        p.blockType = GuardianKeyArmoredBlock → ops.ioReadAll p.Body = .ok b →
        ops.protoUnmarshal b = .error err →
        loadGuardianKey ops filename
          = (none, some (GoError.wrap ("failed to deserialize protobuf: " ++ err.Error) err)))
    ∧ (∀ f p b m err, ops.osOpen filename = .ok f → ops.armorDecode f = .ok p →
        p.blockType = GuardianKeyArmoredBlock → ops.ioReadAll p.Body = .ok b →
        ops.protoUnmarshal b = .ok m → ops.toECDSA m.Data = .error err →
        loadGuardianKey ops filename
          = (none, some (GoError.wrap ("failed to deserialize raw key data: " ++ err.Error)
              err)))
    ∧ (∀ f p b m k, ops.osOpen filename = .ok f → ops.armorDecode f = .ok p →
        p.blockType = GuardianKeyArmoredBlock → ops.ioReadAll p.Body = .ok b →
        ops.protoUnmarshal b = .ok m → ops.toECDSA m.Data = .ok k →
        loadGuardianKey ops filename = (some k, none)) := by
  refine ⟨loadGuardianKey_exactly_one ops filename, loadGuardianKey_firstFailure ops filename,
    ?_, ?_, ?_, ?_, ?_, ?_, ?_, ?_⟩
  · intro st st' d d' hne
    exact string_append_ne _ _ (pfx_diverge _ _ hne) _ _
  · intro err h1
    simp [loadGuardianKey, h1, errorfW]
  · intro f err h1 h2
    simp [loadGuardianKey, h1, h2, errorfW]
  · intro f p h1 h2 h3
    simp [loadGuardianKey, h1, h2, h3, errorfS]
  · intro f p err h1 h2 h3 h4
    simp [loadGuardianKey, h1, h2, h3, h4, errorfW]
  · intro f p b err h1 h2 h3 h4 h5
    simp [loadGuardianKey, h1, h2, h3, h4, h5, errorfW]
  · intro f p b m err h1 h2 h3 h4 h5 h6
    simp [loadGuardianKey, h1, h2, h3, h4, h5, h6, errorfW]
  · intro f p b m k h1 h2 h3 h4 h5 h6
    simp [loadGuardianKey, h1, h2, h3, h4, h5, h6]

/-! ## The run of `main`: C2, C8 -/

theorem main_shape {File Reader Key PubKey PrivKey MA Host DHT PubSub Topic : Type}
    (env : Env File Reader Key PubKey PrivKey MA Host DHT PubSub Topic) :
    (∃ msg, (main env).events <+: fullRun msg)
    ∧ (∀ m, Event.publish m ∈ (main env).events →
        ∃ sk priv h ps th q sig, StagesSucceed env sk priv h ps th q sig m)
    ∧ ((main env).exit = Exit.done ↔ Event.logSuccess ∈ (main env).events) := by
  rcases loadGuardianKey_exactly_one env.keyOps signingKeyPath with ⟨sk, h1⟩ | ⟨e, h1⟩
  swap
  · simp [main, h1, fullRun]
  cases h2 : env.getOrCreateNodeKey nodeKeyPath with
  | error err => simp [main, h1, h2, fullRun]
  | ok priv =>
    cases h3 : env.libp2pNew priv (env.listeningAddresses p2pPort)
        (routingClosure env p2pBootstrap p2pNetworkID) with
    | error err => simp [main, h1, h2, h3, fullRun]
    | ok h =>
      cases h4 : env.newGossipSub h with
      | error err => simp [main, h1, h2, h3, h4, fullRun]
      | ok ps =>
        cases h5 : env.join ps topic with
        | error err => simp [main, h1, h2, h3, h4, h5, fullRun]
        | ok th =>
          cases h6 : env.marshalQueryRequest theQueryRequest with
          | error err => simp [main, h1, h2, h3, h4, h5, h6, fullRun]
          | ok q =>
            cases h7 : env.sign (queryRequestDigest env.keccak256Hash
                (queryRequestPrefix ++ env.prefixSpare) q).1.Bytes sk with
            | error err => simp [main, h1, h2, h3, h4, h5, h6, h7, fullRun]
            | ok sig =>
              cases h8 : env.marshalGossipMessage (envelope env sk q sig) with
              | error err => simp [main, h1, h2, h3, h4, h5, h6, h7, h8, fullRun]
              | ok b =>
                have hok : StagesSucceed env sk priv h ps th q sig b :=
                  ⟨h1, h2, h3, h4, h5, h6, h7, h8⟩
                cases h9 : env.publish th b with
                | some err =>
                  refine ⟨⟨b, ?_⟩, ?_, ?_⟩
                  · simp [main, h1, h2, h3, h4, h5, h6, h7, h8, h9, fullRun]
                  · intro m hm
                    simp [main, h1, h2, h3, h4, h5, h6, h7, h8, h9] at hm
                    subst hm
                    exact ⟨sk, priv, h, ps, th, q, sig, hok⟩
                  · simp [main, h1, h2, h3, h4, h5, h6, h7, h8, h9]
                | none =>
                  refine ⟨⟨b, ?_⟩, ?_, ?_⟩
                  · simp [main, h1, h2, h3, h4, h5, h6, h7, h8, h9, fullRun]
                  · intro m hm
                    simp [main, h1, h2, h3, h4, h5, h6, h7, h8, h9] at hm
                    subst hm
                    exact ⟨sk, priv, h, ps, th, q, sig, hok⟩
                  · simp [main, h1, h2, h3, h4, h5, h6, h7, h8, h9]

theorem topic_eq : topic = "/wormhole/dev/broadcast" := by decide

theorem theQueryRequest_eq :
    theQueryRequest =
      { ChainId := 5, Nonce := 0,
        Message := .EthCallQueryRequest
          { To := [0x0d, 0x50, 0x0b, 0x1d, 0x8e, 0x8e, 0xf3, 0x1e, 0x21, 0xc9, 0x9d, 0x1d,
                   0xb9, 0xa6, 0x44, 0x4d, 0x3a, 0xdf, 0x12, 0x70],
            Data := [0x18, 0x16, 0x0d, 0xdd],
            Block := "latest" } } := by
  decide

/-- C2: whenever a run hands a message `m` to `Publish` (with a signing function whose
signatures are 65 bytes long), there are a loaded signing key `sk`, serialised request
bytes `q` and a signature `sig` such that `q` is the serialisation of the query with chain
5, nonce 0, the 20-byte target `0d500b1d…1270`, data `18160ddd` and block `latest`; `sig`
is the signature by `sk` of `queryRequestDigest q`, the Keccak-256 hash of `tag ++ q`, and
is 65 bytes long; and `m` is the serialisation of the gossip message whose variant is the
signed query request with these `q` and `sig` and the 20-byte address of `sk`'s public key. -/
theorem published_message_is_signed_query
    {File Reader Key PubKey PrivKey MA Host DHT PubSub Topic : Type}
    (env : Env File Reader Key PubKey PrivKey MA Host DHT PubSub Topic)
    (hsig : ∀ d k sig, env.sign d k = .ok sig → sig.length = 65)
    (m : List Byte) (hpub : Event.publish m ∈ (main env).events) :
    ∃ sk q sig,
      loadGuardianKey env.keyOps signingKeyPath = (some sk, none)
      ∧ env.marshalQueryRequest
          { ChainId := 5, Nonce := 0,
            Message := .EthCallQueryRequest
              { To := [0x0d, 0x50, 0x0b, 0x1d, 0x8e, 0x8e, 0xf3, 0x1e, 0x21, 0xc9, 0x9d, 0x1d,
                       0xb9, 0xa6, 0x44, 0x4d, 0x3a, 0xdf, 0x12, 0x70],
                Data := [0x18, 0x16, 0x0d, 0xdd],
                Block := "latest" } } = .ok q
      ∧ env.sign (env.keccak256Hash (queryRequestPrefix ++ q)).Bytes sk = .ok sig
      ∧ env.marshalGossipMessage
          { Message := .SignedQueryRequest
              { QueryRequest := q
                Signature := sig
                RequestorAddr := (env.pubkeyToAddress (env.publicKey sk)).Bytes } } = .ok m
      ∧ sig.length = 65
      ∧ (env.pubkeyToAddress (env.publicKey sk)).Bytes.length = 20 := by
  obtain ⟨sk, priv, h, ps, th, q, sig, h1, _, _, _, _, h6, h7, h8⟩ :=
    (main_shape env).2.1 m hpub
  rw [queryRequestDigest_fst] at h7
  rw [theQueryRequest_eq] at h6
  exact ⟨sk, q, sig, h1, h6, h7, h8, hsig _ _ _ h7, by simp [Address.Bytes]⟩

/-- C8: the stages a run reaches are always an initial segment of signing-key loading,
node-key loading, host construction, pub/sub creation, topic join, request serialisation,
signing, envelope serialisation, `Publish`, success message; `Publish` is invoked exactly
when the eight stages before it all succeeded, and the success message is logged exactly
when the run ends normally; a failure of any stage ends the run with that stage as the
last one reached; the routing closure fails only when `dht.New` does, whatever bootstrap
entries fail to parse; and the two hex literals decode without the error that `main`
discards. -/
theorem main_aborts_on_first_failure
    {File Reader Key PubKey PrivKey MA Host DHT PubSub Topic : Type}
    (env : Env File Reader Key PubKey PrivKey MA Host DHT PubSub Topic) :
    (∃ msg, (main env).events <+: fullRun msg)
    ∧ (∀ m, Event.publish m ∈ (main env).events ↔
        ∃ sk priv h ps th q sig, StagesSucceed env sk priv h ps th q sig m)
    ∧ (Event.logSuccess ∈ (main env).events ↔ (main env).exit = Exit.done)
    ∧ (∀ err, (loadGuardianKey env.keyOps signingKeyPath).2 = some err →
        main env = ⟨[Event.loadSigningKey], .fatal "failed to load guardian key" err⟩)
    ∧ (∀ sk err, loadGuardianKey env.keyOps signingKeyPath = (some sk, none) →
        env.getOrCreateNodeKey nodeKeyPath = .error err →
        main env = ⟨[Event.loadSigningKey, Event.loadNodeKey], .fatal "Failed to load node key" err⟩)
    ∧ (∀ sk priv err, loadGuardianKey env.keyOps signingKeyPath = (some sk, none) →
        env.getOrCreateNodeKey nodeKeyPath = .ok priv →
        env.libp2pNew priv (env.listeningAddresses p2pPort)
          (routingClosure env p2pBootstrap p2pNetworkID) = .error err →
        main env = ⟨[Event.loadSigningKey, Event.loadNodeKey, Event.newHost], .panic err⟩)
    ∧ (∀ sk priv h err, loadGuardianKey env.keyOps signingKeyPath = (some sk, none) →
        env.getOrCreateNodeKey nodeKeyPath = .ok priv →
        env.libp2pNew priv (env.listeningAddresses p2pPort)
          (routingClosure env p2pBootstrap p2pNetworkID) = .ok h →
        env.newGossipSub h = .error err →
        main env = ⟨[Event.loadSigningKey, Event.loadNodeKey, Event.newHost, Event.newGossipSub], .panic err⟩)
    ∧ (∀ sk priv h ps err, loadGuardianKey env.keyOps signingKeyPath = (some sk, none) →
        env.getOrCreateNodeKey nodeKeyPath = .ok priv →
        env.libp2pNew priv (env.listeningAddresses p2pPort)
          (routingClosure env p2pBootstrap p2pNetworkID) = .ok h →
        env.newGossipSub h = .ok ps →
        env.join ps topic = .error err →
        main env = ⟨[Event.loadSigningKey, Event.loadNodeKey, Event.newHost, Event.newGossipSub, Event.joinTopic], .logPanic "failed to join topic" err⟩)
    ∧ (∀ sk priv h ps th err, loadGuardianKey env.keyOps signingKeyPath = (some sk, none) →
        env.getOrCreateNodeKey nodeKeyPath = .ok priv →
        env.libp2pNew priv (env.listeningAddresses p2pPort)
          (routingClosure env p2pBootstrap p2pNetworkID) = .ok h →
        env.newGossipSub h = .ok ps →
        env.join ps topic = .ok th →
        env.marshalQueryRequest theQueryRequest = .error err →
        main env = ⟨[Event.loadSigningKey, Event.loadNodeKey, Event.newHost, Event.newGossipSub, Event.joinTopic, Event.marshalRequest], .panic err⟩)
    ∧ (∀ sk priv h ps th q err, loadGuardianKey env.keyOps signingKeyPath = (some sk, none) →
        env.getOrCreateNodeKey nodeKeyPath = .ok priv →
        env.libp2pNew priv (env.listeningAddresses p2pPort)
          (routingClosure env p2pBootstrap p2pNetworkID) = .ok h →
        env.newGossipSub h = .ok ps →
        env.join ps topic = .ok th →
        env.marshalQueryRequest theQueryRequest = .ok q →
        env.sign (queryRequestDigest env.keccak256Hash
          (queryRequestPrefix ++ env.prefixSpare) q).1.Bytes sk = .error err →
        main env = ⟨[Event.loadSigningKey, Event.loadNodeKey, Event.newHost, Event.newGossipSub, Event.joinTopic, Event.marshalRequest, Event.sign], .panic err⟩)
    ∧ (∀ sk priv h ps th q sig err,
        loadGuardianKey env.keyOps signingKeyPath = (some sk, none) →
        env.getOrCreateNodeKey nodeKeyPath = .ok priv →
        env.libp2pNew priv (env.listeningAddresses p2pPort)
          (routingClosure env p2pBootstrap p2pNetworkID) = .ok h →
        env.newGossipSub h = .ok ps →
        env.join ps topic = .ok th →
        env.marshalQueryRequest theQueryRequest = .ok q →
        env.sign (queryRequestDigest env.keccak256Hash
          (queryRequestPrefix ++ env.prefixSpare) q).1.Bytes sk = .ok sig →
        env.marshalGossipMessage (envelope env sk q sig) = .error err →
        main env = ⟨[Event.loadSigningKey, Event.loadNodeKey, Event.newHost, Event.newGossipSub, Event.joinTopic, Event.marshalRequest, Event.sign, Event.marshalEnvelope], .panic err⟩)
    ∧ (∀ sk priv h ps th q sig b err, StagesSucceed env sk priv h ps th q sig b →
        env.publish th b = some err →
        main env = ⟨[Event.loadSigningKey, Event.loadNodeKey, Event.newHost, Event.newGossipSub, Event.joinTopic, Event.marshalRequest, Event.sign, Event.marshalEnvelope, Event.publish b], .panic err⟩)
    ∧ (∀ sk priv h ps th q sig b, StagesSucceed env sk priv h ps th q sig b →
        env.publish th b = none →
        main env = ⟨fullRun b, .done⟩)
    ∧ (∀ (bootstrapPeers networkID : String) (h : Host),
        routingClosure env bootstrapPeers networkID h
          = env.dhtNew h ("/" ++ networkID)
              ((stringsSplitComma bootstrapPeers).filterMap
                (acceptedEntry env.newMultiaddr env.addrInfoFromP2pAddr (env.hostID h))))
    ∧ (hexDecodeString "0d500b1d8e8ef31e21c99d1db9a6444d3adf1270").2 = none
    ∧ (hexDecodeString "18160ddd").2 = none := by
  refine ⟨(main_shape env).1, ?_, ((main_shape env).2.2).symm, ?_, ?_, ?_, ?_, ?_, ?_, ?_, ?_,
    ?_, ?_, ?_, by decide, by decide⟩
  · intro m
    refine ⟨(main_shape env).2.1 m, ?_⟩
    rintro ⟨sk, priv, h, ps, th, q, sig, h1, h2, h3, h4, h5, h6, h7, h8⟩
    cases h9 : env.publish th m <;> simp [main, h1, h2, h3, h4, h5, h6, h7, h8, h9]
  · intro err h1
    cases hl : loadGuardianKey env.keyOps signingKeyPath with
    | mk a b =>
      rw [hl] at h1
      cases h1
      simp [main, hl]
  · intro sk err h1 h2
    simp [main, h1, h2]
  · intro sk priv err h1 h2 h3
    simp [main, h1, h2, h3]
  · intro sk priv h err h1 h2 h3 h4
    simp [main, h1, h2, h3, h4]
  · intro sk priv h ps err h1 h2 h3 h4 h5
    simp [main, h1, h2, h3, h4, h5]
  · intro sk priv h ps th err h1 h2 h3 h4 h5 h6
    simp [main, h1, h2, h3, h4, h5, h6]
  · intro sk priv h ps th q err h1 h2 h3 h4 h5 h6 h7
    simp [main, h1, h2, h3, h4, h5, h6, h7]
  · intro sk priv h ps th q sig err h1 h2 h3 h4 h5 h6 h7 h8
    simp [main, h1, h2, h3, h4, h5, h6, h7, h8]
  · rintro sk priv h ps th q sig b err ⟨h1, h2, h3, h4, h5, h6, h7, h8⟩ h9
    simp [main, h1, h2, h3, h4, h5, h6, h7, h8, h9]
  · rintro sk priv h ps th q sig b ⟨h1, h2, h3, h4, h5, h6, h7, h8⟩ h9
    simp [main, h1, h2, h3, h4, h5, h6, h7, h8, h9, fullRun]
  · intro bootstrapPeers networkID h
    unfold routingClosure bootstrapPeerList
    rw [bootstrapFold_eq, List.nil_append]

/-! ## Instances on the example environment -/

theorem demo_run : main demoEnv = ⟨fullRun demoMsg, Exit.done⟩ := by decide

theorem demo_sign_length (d k sig : List Byte) (h : demoEnv.sign d k = .ok sig) :
    sig.length = 65 := by
  simp only [demoEnv, Except.ok.injEq] at h
  rw [← h, List.length_replicate]

/-- Instance of C2 on the example environment. -/
theorem published_message_is_signed_query_witness :
    (∀ d k sig, demoEnv.sign d k = .ok sig → sig.length = 65)
    ∧ Event.publish demoMsg ∈ (main demoEnv).events
    ∧ ∃ sk q sig,
      loadGuardianKey demoEnv.keyOps signingKeyPath = (some sk, none)
      ∧ demoEnv.marshalQueryRequest
          { ChainId := 5, Nonce := 0,
            Message := .EthCallQueryRequest
              { To := [0x0d, 0x50, 0x0b, 0x1d, 0x8e, 0x8e, 0xf3, 0x1e, 0x21, 0xc9, 0x9d, 0x1d,
                       0xb9, 0xa6, 0x44, 0x4d, 0x3a, 0xdf, 0x12, 0x70],
                Data := [0x18, 0x16, 0x0d, 0xdd],
                Block := "latest" } } = .ok q
      ∧ demoEnv.sign (demoEnv.keccak256Hash (queryRequestPrefix ++ q)).Bytes sk = .ok sig
      ∧ demoEnv.marshalGossipMessage
          { Message := .SignedQueryRequest
              { QueryRequest := q
                Signature := sig
                RequestorAddr := (demoEnv.pubkeyToAddress (demoEnv.publicKey sk)).Bytes } }
          = .ok demoMsg
      ∧ sig.length = 65
      ∧ (demoEnv.pubkeyToAddress (demoEnv.publicKey sk)).Bytes.length = 20 :=
  ⟨demo_sign_length, by decide,
    published_message_is_signed_query demoEnv demo_sign_length demoMsg (by decide)⟩

/-- Instance of C3: the three example entries with the peer ID `QmPeer`, on a host whose
own ID is `self`. -/
theorem bootstrapPeerList_spec_witness :
    bootstrapPeerList demoNewMultiaddr demoAddrInfo "self"
        (stringsJoinComma ["", "/ip4/1.2.3.4/udp/4001/quic/p2p/" ++ "QmPeer", "not-a-multiaddr"])
      = [{ ID := "QmPeer", Addrs := ["/ip4/1.2.3.4/udp/4001/quic/p2p/" ++ "QmPeer"] }] :=
  (bootstrapPeerList_spec demoNewMultiaddr demoAddrInfo "self" "").2.2.2.2
    "QmPeer" ("/ip4/1.2.3.4/udp/4001/quic/p2p/" ++ "QmPeer")
    { ID := "QmPeer", Addrs := ["/ip4/1.2.3.4/udp/4001/quic/p2p/" ++ "QmPeer"] }
    (.leaf "failed to parse multiaddr: must begin with /")
    (by decide) rfl rfl (by decide) rfl

/-- Instance of C4: a block labelled `PGP MESSAGE`. -/
theorem loadGuardianKey_label_check_witness :
    (demoKeyOps "PGP MESSAGE" [1, 2, 3]).osOpen "k" = .ok "k"
    ∧ (demoKeyOps "PGP MESSAGE" [1, 2, 3]).armorDecode "k"
        = .ok { blockType := "PGP MESSAGE", Body := [1, 2, 3] }
    ∧ "PGP MESSAGE" ≠ GuardianKeyArmoredBlock
    ∧ loadGuardianKey (demoKeyOps "PGP MESSAGE" [1, 2, 3]) "k"
        = (none, some (GoError.leaf ("invalid block type: " ++ "PGP MESSAGE"))) :=
  ⟨rfl, rfl, by decide,
    ((loadGuardianKey_label_check (demoKeyOps "PGP MESSAGE" [1, 2, 3]) "k" "k"
      { blockType := "PGP MESSAGE", Body := [1, 2, 3] } rfl rfl).1 (by decide)).1⟩

/-- Instance of C5: the example key file. -/
theorem loadGuardianKey_round_trip_witness :
    loadGuardianKey (demoKeyOps GuardianKeyArmoredBlock (demoMarshalKey { Data := demoKey }))
      signingKeyPath = (some demoKey, none) :=
  loadGuardianKey_round_trip
    (demoKeyOps GuardianKeyArmoredBlock (demoMarshalKey { Data := demoKey }))
    demoMarshalKey (fun k => k) signingKeyPath signingKeyPath
    { blockType := GuardianKeyArmoredBlock, Body := demoMarshalKey { Data := demoKey } }
    demoKey rfl rfl rfl rfl rfl rfl

/-- Instance of C8: the example run reaches every stage and ends normally; with a wrongly
labelled key file the run ends at the first stage. -/
theorem main_aborts_on_first_failure_witness :
    main demoEnv = ⟨fullRun demoMsg, Exit.done⟩
    ∧ main demoEnvBadKey
        = ⟨[Event.loadSigningKey],
            Exit.fatal "failed to load guardian key"
              (GoError.leaf ("invalid block type: " ++ "PGP MESSAGE"))⟩ :=
  ⟨(main_aborts_on_first_failure demoEnv).2.2.2.2.2.2.2.2.2.2.2.2.1
      demoKey 1 "self" 0 topic [0x18, 0x16, 0x0d, 0xdd] (List.replicate 65 1) demoMsg
      ⟨by decide, rfl, rfl, rfl, rfl, rfl, rfl, rfl⟩ rfl,
    (main_aborts_on_first_failure demoEnvBadKey).2.2.2.1
      (GoError.leaf ("invalid block type: " ++ "PGP MESSAGE")) (by decide)⟩

/-- Instance of C10: a body that is not a record fails at the deserialisation stage. -/
theorem loadGuardianKey_stage_errors_witness :
    loadGuardianKey (demoKeyOps GuardianKeyArmoredBlock [1, 2, 3]) "k"
      = (none, some (GoError.wrap
          ("failed to deserialize protobuf: "
            ++ (GoError.leaf "proto: cannot parse invalid wire-format data").Error)
          (GoError.leaf "proto: cannot parse invalid wire-format data"))) :=
  (loadGuardianKey_stage_errors (demoKeyOps GuardianKeyArmoredBlock [1, 2, 3]) "k").2.2.2.2.2.2.2.1
    "k" { blockType := GuardianKeyArmoredBlock, Body := [1, 2, 3] } [1, 2, 3]
    (GoError.leaf "proto: cannot parse invalid wire-format data") rfl rfl rfl rfl rfl

end SendReq
